import Mathlib

/-!
Verification of the txtai composition layer: the capability composer and
extension runner of `src/python/txtai/api/application.py`, and the LLM
backend-resolution facade of `src/python/txtai/pipeline/llm/llm.py`.
Definitions are shallow embeddings of the Python source; components that
the application module calls but whose source is elsewhere (the Factory
and GenerationFactory modules) are modelled from the specification and
marked as such in their doc comments.
-/

namespace Application

/-- The thirteen router names of the `routers` table in `start`
(application.py lines 50-64), in source order. -/
def routerNames : List String :=
  ["caption", "embeddings", "extractor", "labels", "objects", "segmentation",
   "similarity", "summary", "tabular", "textractor", "transcription",
   "translation", "workflow"]

/-- The resolved capability set computed by `start` (application.py lines
66-77): the declared configuration keys, plus `"embeddings"` when
`"cluster"` is declared and `"embeddings"` is not (line 72), plus
`"similarity"` when `"embeddings"` is declared and `"similarity"` is not
(line 76).  Both conditional tests read the original `config` mapping,
which is never mutated. -/
def resolveCapabilities (declared : Finset String) : Finset String :=
  (declared ∪
    (if "cluster" ∈ declared ∧ "embeddings" ∉ declared then {"embeddings"} else ∅)) ∪
  (if "embeddings" ∈ declared ∧ "similarity" ∉ declared then {"similarity"} else ∅)

/-- The capability graph of the source, as edge data: each edge is a pair
(trigger set of capability names, implied capability name).  The source's
two special cases (application.py lines 72 and 76) are the edges
(cluster → embeddings) and (embeddings → similarity). -/
def capabilityEdges : List (List String × String) :=
  [(["cluster"], "embeddings"), (["embeddings"], "similarity")]

/-- The resolution algorithm exactly as the spec words it ("for each edge
(trigger, implied) in the graph, if trigger ⊆ declared and implied ∉
declared, add implied to the result"), written over `capabilityEdges` for
comparison with `resolveCapabilities`. -/
def specResolve (declared : Finset String) : Finset String :=
  declared ∪
    ((capabilityEdges.filter
        (fun e => decide (∀ t ∈ e.1, t ∈ declared) && decide (e.2 ∉ declared))).map
      Prod.snd).toFinset

/-- Events observable while the extension loop of `start` runs
(application.py lines 80-85): resolving a unit by name, instantiating it
with zero arguments, and invoking the instance.  The `invoked` event
records the argument the instance receives; `α` is the type of the
composition root (`app`). -/
inductive ExtEvent (α : Type) where
  | resolved (name : String)
  | instantiated (name : String)
  | invoked (name : String) (arg : α)
deriving DecidableEq, Repr

/-- Python's `str.strip()` (application.py line 84): removes leading and
trailing whitespace. -/
def pyStrip (s : String) : String :=
  ⟨((s.data.dropWhile Char.isWhitespace).reverse.dropWhile Char.isWhitespace).reverse⟩

/-- The extension loop of `start` (application.py lines 82-85): for each
name in the declared list, strip it, resolve a unit for it via
`Factory.get`, instantiate the unit with zero arguments, and invoke the
instance with `app` as its only argument, in declared order.  The Factory
module is not under src/; its failure behaviour is modelled from the
spec: `Factory.get` fails startup with a ConfigurationError naming the
unresolved extension when the name is not resolvable, so the loop stops
there and no later unit is constructed.  `resolvable` says which names
`Factory.get` can resolve; the result is the list of events that occurred
together with the error, if any, that aborted the loop. -/
def runExtensions {α : Type} (resolvable : String → Bool) (root : α) :
    List String → List (ExtEvent α) × Option String
  | [] => ([], none)
  | n :: rest =>
    let m := pyStrip n
    if resolvable m then
      let (tr, err) := runExtensions resolvable root rest
      (ExtEvent.resolved m :: ExtEvent.instantiated m :: ExtEvent.invoked m root :: tr,
        err)
    else
      ([], some ("Unable to resolve extension: " ++ m))

/-- The event trace the extension loop produces when every name resolves:
for each name in order, its three events, with nothing interleaved. -/
def extensionTrace {α : Type} (root : α) : List String → List (ExtEvent α)
  | [] => []
  | n :: rest =>
    ExtEvent.resolved (pyStrip n) :: ExtEvent.instantiated (pyStrip n) ::
      ExtEvent.invoked (pyStrip n) root :: extensionTrace root rest

/-- Initial value of the module-level `INSTANCE` global
(application.py line 19): `None` until `start` has run.  The instance
itself is opaque to this layer, so its type is a parameter. -/
def initialINSTANCE (α : Type) : Option α := none

/-- `get` (application.py lines 22-30): returns the global instance slot
unchanged, whatever it holds. -/
def get {α : Type} (instanceSlot : Option α) : Option α := instanceSlot

/-- Membership characterization of `resolveCapabilities`. -/
lemma mem_resolveCapabilities (x : String) (declared : Finset String) :
    x ∈ resolveCapabilities declared ↔
      x ∈ declared ∨
        (x = "embeddings" ∧ "cluster" ∈ declared ∧ "embeddings" ∉ declared) ∨
        (x = "similarity" ∧ "embeddings" ∈ declared ∧ "similarity" ∉ declared) := by
  unfold resolveCapabilities
  by_cases h1 : "cluster" ∈ declared ∧ "embeddings" ∉ declared <;>
    by_cases h2 : "embeddings" ∈ declared ∧ "similarity" ∉ declared <;>
      simp [h1, h2]

/-- The list of routers included by `start` (application.py lines 66-77),
identified by router name: the loop over the router table includes every
router whose name is a configuration key (lines 67-69), then the two
special cases conditionally include the embeddings and similarity routers
(lines 72-77). -/
def includedRouters (config : Finset String) : List String :=
  (routerNames.filter (fun n => n ∈ config)) ++
  (if "cluster" ∈ config ∧ "embeddings" ∉ config then ["embeddings"] else []) ++
  (if "embeddings" ∈ config ∧ "similarity" ∉ config then ["similarity"] else [])

end Application

namespace Llm

/-- The backend families the LLM pipeline supports (llm.py lines 10-16):
local Hugging Face Transformers models, local llama.cpp models, and
remote LiteLLM API models.  Modelled from the spec: the GenerationFactory
module holding the family registry is not under src/. -/
def supportedFamilies : List String := ["transformers", "llamacpp", "litellm"]

/-- The baseline local family used when identifier inference finds no
family-specific marker.  Modelled from the spec: "absence of any marker
defaulting to a baseline local backend". -/
def defaultFamily : String := "transformers"

/-- Modelled from the spec: the identifier marker of a locally stored
artifact of a particular format (a llama.cpp GGUF model file path). -/
def hasLocalArtifactMarker (identifier : String) : Bool :=
  List.isSuffixOf ".gguf".data identifier.data

/-- Modelled from the spec: known remote API providers whose
`provider/model`-shaped identifiers select the remote family. -/
def remoteProviders : List String :=
  ["openai", "azure", "anthropic", "cohere", "replicate"]

/-- Modelled from the spec: whether the identifier is a
`provider/model`-shaped string suggesting a remote API. -/
def hasRemoteMarker (identifier : String) : Bool :=
  remoteProviders.any (fun p => List.isPrefixOf (p ++ "/").data identifier.data)

/-- Modelled from the spec: IdentifierInference, the pure, total function
deriving a backend family from the identifier string when no explicit
method is given (the inference code lives in the GenerationFactory
module, which is not under src/).  It inspects the identifier for
family-specific markers and falls back to the default family, never
raising. -/
def infer (identifier : String) : String :=
  if hasLocalArtifactMarker identifier then "llamacpp"
  else if hasRemoteMarker identifier then "litellm"
  else defaultFamily

/-- A resolved backend instance: its family, the identifier it was
constructed from, and the constructor keyword arguments forwarded to it
verbatim. -/
structure Backend where
  family : String
  path : String
  kwargs : List (String × String)
deriving DecidableEq, Repr

/-- Result of backend resolution: a constructed backend, or a
ConfigurationError message. -/
inductive FactoryResult where
  | ok (backend : Backend)
  | configError (message : String)
deriving DecidableEq, Repr

/-- Modelled from the spec: `GenerationFactory.create(path, method,
**kwargs)` (the factory module is not under src/).  When `method` is not
supplied it is obtained from IdentifierInference; a supported method
constructs that family's backend, and an unknown method fails with a
ConfigurationError naming the unsupported family, never falling back to
another family. -/
def create (path : String) (method : Option String) (kwargs : List (String × String)) :
    FactoryResult :=
  let m := match method with
    | some m => m
    | none => infer path
  if m ∈ supportedFamilies then FactoryResult.ok ⟨m, path, kwargs⟩
  else FactoryResult.configError ("Unsupported generation framework: " ++ m)

/-- The default model identifier of `LLM.__init__` (llm.py line 29). -/
def defaultPath : String := "google/flan-t5-base"

/-- The path-defaulting step of `LLM.__init__` (llm.py line 29): Python
`path = path if path else "google/flan-t5-base"`, where a missing path or
an empty string is falsy. -/
def resolvePath (path : Option String) : String :=
  match path with
  | none => defaultPath
  | some p => if p = "" then defaultPath else p

/-- `LLM.__init__` (llm.py lines 18-32): defaults the path, then hands
path, method, and the keyword arguments to `GenerationFactory.create` to
build the generation instance. -/
def llmInit (path : Option String) (method : Option String)
    (kwargs : List (String × String)) : FactoryResult :=
  create (resolvePath path) method kwargs

/-- `LLM.__call__` (llm.py lines 34-48): runs the resolved generator on
the input text, maximum length, and keyword arguments, returning its
result.  The generator, its input and output payloads, and its errors are
opaque to the facade, so they are type parameters; a generator either
returns output or raises an error, modelled as `Except`. -/
def llmCall {I O E : Type} (generator : I → Nat → List (String × String) → Except E O)
    (text : I) (maxlength : Nat) (kwargs : List (String × String)) : Except E O :=
  generator text maxlength kwargs

end Llm

namespace Application

/-- Claim C1: capability resolution computes exactly
declared ∪ \x7bimplied : trigger ⊆ declared and implied ∉ declared\x7d, every
edge evaluated against the original declared set only (no chaining), and
on the concrete examples: declared \x7b"cluster"\x7d resolves to
\x7b"cluster", "embeddings"\x7d (in particular "similarity" is not added via
the newly implied "embeddings", since it is absent from that result set),
declared \x7b"embeddings"\x7d resolves to \x7b"embeddings", "similarity"\x7d, and
declared \x7b"embeddings", "similarity"\x7d resolves to itself. -/
theorem capability_resolution_matches_spec :
    (∀ declared : Finset String, resolveCapabilities declared = specResolve declared) ∧
    resolveCapabilities {"cluster"} = {"cluster", "embeddings"} ∧
    resolveCapabilities {"embeddings"} = {"embeddings", "similarity"} ∧
    resolveCapabilities {"embeddings", "similarity"} = {"embeddings", "similarity"} := by
  refine ⟨?_, by decide, by decide, by decide⟩
  intro declared
  ext x
  rw [mem_resolveCapabilities]
  unfold specResolve capabilityEdges
  by_cases h1 : "cluster" ∈ declared <;> by_cases h2 : "embeddings" ∈ declared <;>
    by_cases h3 : "similarity" ∈ declared <;> simp [h1, h2, h3, List.filter]

/-- Claim C2 counterexample: resolution is not idempotent on the
program's edge set.  At declared = \x7b"cluster"\x7d the first pass adds
"embeddings" only, but a second pass over that result also adds
"similarity" through the (embeddings → similarity) edge, so
resolve(resolve(\x7b"cluster"\x7d)) ≠ resolve(\x7b"cluster"\x7d). -/
theorem capability_resolution_chains_at_cluster :
    resolveCapabilities (resolveCapabilities {"cluster"}) ≠
      resolveCapabilities {"cluster"} := by decide

/-- Claim C2 as amended: resolution is idempotent for every declared set
except those where a newly implied capability itself triggers another
edge, i.e. for every declared set other than the ones containing
"cluster" but neither "embeddings" nor "similarity". -/
theorem capability_resolution_idempotent_unless_chained (declared : Finset String)
    (h : ¬("cluster" ∈ declared ∧ "embeddings" ∉ declared ∧ "similarity" ∉ declared)) :
    resolveCapabilities (resolveCapabilities declared) = resolveCapabilities declared := by
  ext x
  rw [mem_resolveCapabilities, mem_resolveCapabilities, mem_resolveCapabilities,
    mem_resolveCapabilities]
  by_cases h1 : "cluster" ∈ declared <;> by_cases h2 : "embeddings" ∈ declared <;>
    by_cases h3 : "similarity" ∈ declared <;> simp_all

/-- Witness for the amended claim C2 at declared = \x7b"embeddings"\x7d. -/
theorem capability_resolution_idempotent_unless_chained_witness :
    ¬("cluster" ∈ ({"embeddings"} : Finset String) ∧
        "embeddings" ∉ ({"embeddings"} : Finset String) ∧
        "similarity" ∉ ({"embeddings"} : Finset String)) ∧
    resolveCapabilities (resolveCapabilities {"embeddings"}) =
      resolveCapabilities {"embeddings"} :=
  ⟨by decide, capability_resolution_idempotent_unless_chained {"embeddings"} (by decide)⟩

/-- Claim C3: within one startup pass, every configuration yields a
router-inclusion list without duplicates — no capability's router is
included twice, even one reachable both as a declared key and as an
implied capability. -/
theorem routers_included_at_most_once (config : Finset String) :
    (includedRouters config).Nodup := by
  have hnd : routerNames.Nodup := by decide
  unfold includedRouters
  by_cases h1 : "cluster" ∈ config ∧ "embeddings" ∉ config <;>
    by_cases h2 : "embeddings" ∈ config ∧ "similarity" ∉ config <;>
      simp [h1, h2, List.nodup_append, hnd.filter, List.mem_filter]

/-- Claim C4: when every declared name resolves, the extension loop
processes the names strictly sequentially in declared order — the run
produces exactly the per-name (resolved, instantiated, invoked) event
triples concatenated in declared order, so each name's unit is fully
invoked before the next name's unit is constructed; each name is invoked
exactly as often as it occurs in the declared list (exactly once for
distinct names); and every invocation receives the composition root as
its only argument. -/
theorem extensions_run_sequentially_exactly_once {α : Type} [DecidableEq α]
    (resolvable : String → Bool) (root : α) (names : List String)
    (h : ∀ n ∈ names, resolvable (pyStrip n) = true) :
    runExtensions resolvable root names = (extensionTrace root names, none) ∧
    (∀ n : String,
      (extensionTrace root names).count (ExtEvent.invoked n root) =
        (names.map pyStrip).count n) ∧
    (∀ (n : String) (a : α),
      ExtEvent.invoked n a ∈ extensionTrace root names → a = root) := by
  refine ⟨?_, ?_, ?_⟩
  · induction names with
    | nil => rfl
    | cons n rest ih =>
        have hn : resolvable (pyStrip n) = true := h n (by simp)
        have hrest := ih (fun m hm => h m (by simp [hm]))
        simp [runExtensions, extensionTrace, hn, hrest]
  · intro n
    induction names with
    | nil => simp [extensionTrace]
    | cons m rest ih =>
        have hrest := ih (fun x hx => h x (by simp [hx]))
        simp [extensionTrace, List.count_cons, List.map_cons, hrest, beq_iff_eq]
  · intro n a
    induction names with
    | nil => simp [extensionTrace]
    | cons m rest ih =>
        have hrest := ih (fun x hx => h x (by simp [hx]))
        simp only [extensionTrace, List.mem_cons]
        rintro (h1 | h1 | h1 | h1)
        · cases h1
        · cases h1
        · cases h1; rfl
        · exact hrest h1

/-- Witness for claim C4 at names = ["a", "b"] with an all-resolving
factory: the run is the two sequential event triples with no error. -/
theorem extensions_run_sequentially_exactly_once_witness :
    runExtensions (fun _ => true) () ["a", "b"] = (extensionTrace () ["a", "b"], none) :=
  (extensions_run_sequentially_exactly_once (fun _ => true) () ["a", "b"]
    (fun _ _ => rfl)).1

/-- Claim C5: when a declared extension name does not resolve, startup
fails as a whole with a ConfigurationError naming the unresolved
extension: the run's events are exactly those of the names before the
failing one, so neither the failing extension nor any later extension in
the list is constructed or invoked, and no partial best-effort startup
occurs. -/
theorem extensions_fail_fast_on_unresolved {α : Type} (resolvable : String → Bool)
    (root : α) (pre : List String) (bad : String) (post : List String)
    (h1 : ∀ m ∈ pre, resolvable (pyStrip m) = true)
    (h2 : resolvable (pyStrip bad) = false) :
    runExtensions resolvable root (pre ++ bad :: post) =
      (extensionTrace root pre,
        some ("Unable to resolve extension: " ++ pyStrip bad)) := by
  induction pre with
  | nil => simp [runExtensions, extensionTrace, h2]
  | cons m rest ih =>
      have hm : resolvable (pyStrip m) = true := h1 m (by simp)
      have hrest := ih (fun x hx => h1 x (by simp [hx]))
      simp [runExtensions, extensionTrace, hm, hrest]

/-- Witness for claim C5 at names = ["a", " b ", "c"] where only "a"
resolves: the run stops at " b " with the error naming its stripped form,
and produces only "a"'s events. -/
theorem extensions_fail_fast_on_unresolved_witness :
    runExtensions (fun n => n == "a") () ["a", " b ", "c"] =
      (extensionTrace () ["a"],
        some ("Unable to resolve extension: " ++ pyStrip " b ")) :=
  extensions_fail_fast_on_unresolved (fun n => n == "a") () ["a"] " b " ["c"]
    (by decide) (by decide)

/-- Claim C9 counterexample: called before the startup initialization
phase has run (the INSTANCE slot still holds its initial value), the
global accessor silently returns `none` — it does not fail fast, so the
claim as stated is false on the code. -/
theorem get_returns_none_before_startup :
    get (initialINSTANCE Unit) = none := rfl

/-- Claim C9 as amended: the global accessor returns the INSTANCE slot
unchanged; before startup the slot holds `none`, so the accessor silently
returns `none` rather than failing fast — the "not yet initialized" state
is observable only as a `none` result. -/
theorem get_returns_slot_unchanged :
    (∀ (α : Type) (s : Option α), get s = s) ∧
    get (initialINSTANCE Unit) = none :=
  ⟨fun _ _ => rfl, rfl⟩

end Application

namespace Llm

/-- Claim C6: for every identifier and keyword arguments, resolving with
an unsupported explicit method yields a ConfigurationError whose message
names the unsupported family, and never a constructed backend of any
family (no silent fallback). -/
theorem unsupported_method_raises_config_error
    (identifier : String) (m : String) (kwargs : List (String × String))
    (h : m ∉ supportedFamilies) :
    create identifier (some m) kwargs =
      FactoryResult.configError ("Unsupported generation framework: " ++ m) ∧
    ∀ b : Backend, create identifier (some m) kwargs ≠ FactoryResult.ok b := by
  refine ⟨by simp [create, h], ?_⟩
  intro b
  simp [create, h]

/-- Witness for claim C6 at method = "nonexistent". -/
theorem unsupported_method_raises_config_error_witness :
    "nonexistent" ∉ supportedFamilies ∧
    create "some/model" (some "nonexistent") [] =
      FactoryResult.configError ("Unsupported generation framework: " ++ "nonexistent") :=
  ⟨by decide,
    (unsupported_method_raises_config_error "some/model" "nonexistent" [] (by decide)).1⟩

/-- Claim C7: for every input text, maxlength, and keyword-option
mapping, the generation facade forwards its arguments verbatim to the
resolved backend generator and returns the generator's result unchanged —
in particular, when the generator raises an error, that same error is
what the facade call produces, neither reinterpreted nor swallowed. -/
theorem llm_call_forwards_verbatim {I O E : Type}
    (generator : I → Nat → List (String × String) → Except E O)
    (text : I) (maxlength : Nat) (kwargs : List (String × String)) :
    llmCall generator text maxlength kwargs = generator text maxlength kwargs := rfl

/-- Claim C8: identifier inference is total and non-raising — for every
identifier it returns one of the supported families; for every identifier
lacking any family-specific marker it returns the documented default
family; and when no explicit method is supplied, backend resolution uses
exactly the inferred family, so resolution without a method never yields
a ConfigurationError. -/
theorem infer_total_with_default (identifier : String) :
    infer identifier ∈ supportedFamilies ∧
    (hasLocalArtifactMarker identifier = false → hasRemoteMarker identifier = false →
      infer identifier = defaultFamily) ∧
    (∀ kwargs, create identifier none kwargs =
      FactoryResult.ok ⟨infer identifier, identifier, kwargs⟩) := by
  have hmem : infer identifier ∈ supportedFamilies := by
    unfold infer supportedFamilies defaultFamily
    by_cases h1 : hasLocalArtifactMarker identifier <;>
      by_cases h2 : hasRemoteMarker identifier <;> simp [h1, h2]
  refine ⟨hmem, ?_, ?_⟩
  · intro h1 h2
    simp [infer, h1, h2]
  · intro kwargs
    simp [create, hmem]

/-- Witness for claim C8 at the marker-free identifier "mymodel": it
infers the default family "transformers". -/
theorem infer_total_with_default_witness :
    hasLocalArtifactMarker "mymodel" = false ∧ hasRemoteMarker "mymodel" = false ∧
    infer "mymodel" = defaultFamily :=
  ⟨by decide, by decide, (infer_total_with_default "mymodel").2.1 (by decide) (by decide)⟩

/-- Claim C10: constructing the LLM facade with no path (None) or an
otherwise falsy path (the empty string) passes the fixed default
identifier "google/flan-t5-base" to the factory; every truthy
(non-empty) path is passed to the factory exactly as given. -/
theorem llm_default_path :
    resolvePath none = "google/flan-t5-base" ∧
    resolvePath (some "") = "google/flan-t5-base" ∧
    (∀ p : String, p ≠ "" → resolvePath (some p) = p) ∧
    (∀ path method kwargs, llmInit path method kwargs =
      create (resolvePath path) method kwargs) := by
  refine ⟨rfl, rfl, ?_, fun _ _ _ => rfl⟩
  intro p hp
  simp [resolvePath, hp]

/-- Witness for claim C10 at the truthy path "mistral-7b". -/
theorem llm_default_path_witness :
    "mistral-7b" ≠ "" ∧ resolvePath (some "mistral-7b") = "mistral-7b" :=
  ⟨by decide, llm_default_path.2.2.1 "mistral-7b" (by decide)⟩

end Llm
